import Mathlib

/-!
Shallow embedding of the backend in `apps/users`, `apps/authentication` and
`apps/belvo`: the password-reset code lifecycle, account deletion, login, and
the Belvo banking-gateway endpoints, together with theorems about them.

Time is modelled as a natural number of seconds; the ten-minute expiration of
a reset code is 600 seconds.  Django querysets over the two tables are
modelled as lists; `auto_now_add` timestamps and randomly generated code
strings are passed in as explicit parameters.  Outbound HTTP calls are
modelled by `Except String α` arguments: `.error e` is a
`requests.exceptions.RequestException` whose text is `e`.
-/

namespace Quo

/-- A row of the `User` table (`apps/users/models/user.py`): unique id,
unique email, stored password hash, names, and Django's `is_active` flag. -/
structure User where
  id : Nat
  email : String
  password : String
  first_name : String
  last_name : String
  is_active : Bool
deriving Repr, DecidableEq

/-- A row of the `PasswordResetCode` table (`apps/users/models/reset_pass.py`).
`id` is the primary key, `created_at` the `auto_now_add` timestamp. -/
structure PasswordResetCode where
  id : Nat
  email : String
  code : String
  is_used : Bool
  created_at : Nat
  expires_at : Nat
deriving Repr, DecidableEq

/-- The `is_valid` property of `PasswordResetCode`:
`not self.is_used and self.expires_at > timezone.now()`. -/
def PasswordResetCode.is_valid (rc : PasswordResetCode) (now : Nat) : Bool :=
  !rc.is_used && decide (rc.expires_at > now)

/-- The persistent store: the two tables reachable from the user endpoints. -/
structure Store where
  users : List User
  codes : List PasswordResetCode
deriving Repr, DecidableEq

/-- An HTTP response of the user endpoints: a status and a message
(the `message`/`error` text of the returned JSON body). -/
structure UserResp where
  status : Nat
  detail : String
deriving Repr, DecidableEq

/-- Python truthiness of a `request.data.get(...)` result: `None` and the
empty string are falsy. -/
def truthy : Option String → Bool
  | none => false
  | some s => s != ""

/-- A fresh primary key for a new `PasswordResetCode` row. -/
def freshCodeId (codes : List PasswordResetCode) : Nat :=
  codes.foldl (fun m rc => max m rc.id) 0 + 1

/-- The row update performed by
`PasswordResetCode.objects.filter(email=email, is_used=False).update(is_used=True)`
on a single row. -/
def markUsedFor (e : String) (rc : PasswordResetCode) : PasswordResetCode :=
  if rc.email == e && !rc.is_used then { rc with is_used := true } else rc

/-- `UserViewSet.request_code` (`apps/users/views/user_view.py`).
`now` is `timezone.now()`, `newCode` the randomly generated 8-character code,
and `emailErr` the outcome of `send_mail` (`some t` when it raises with text
`t`; the view's blanket `except Exception` then answers 400, but the rows
already written are not rolled back). -/
def request_code (s : Store) (email : Option String) (now : Nat)
    (newCode : String) (emailErr : Option String) : UserResp × Store :=
  if !truthy email then
    ({ status := 400, detail := "El email es requerido" }, s)
  else
    let e := email.getD ""
    match s.users.find? (fun u => u.email == e) with
    | none => ({ status := 404, detail := "No existe un usuario con este email" }, s)
    | some _ =>
      let invalidated := s.codes.map (markUsedFor e)
      let fresh : PasswordResetCode :=
        { id := freshCodeId s.codes, email := e, code := newCode,
          is_used := false, created_at := now, expires_at := now + 600 }
      let s' : Store := { s with codes := invalidated ++ [fresh] }
      match emailErr with
      | some t => ({ status := 400, detail := t }, s')
      | none =>
        ({ status := 200,
           detail := "Si el correo existe en nuestra base de datos, recibirás un código de verificación" },
         s')

/-- Whether a row matches
`filter(email=email, code=code, is_used=False)` in `reset_password`. -/
def unusedMatch (e c : String) (rc : PasswordResetCode) : Bool :=
  rc.email == e && rc.code == c && !rc.is_used

/-- One step of taking the row with the greatest `created_at`
(`order_by('-created_at').first()`). -/
def pickLater : Option PasswordResetCode → PasswordResetCode → Option PasswordResetCode
  | none, rc => some rc
  | some b, rc => if b.created_at < rc.created_at then some rc else some b

/-- `PasswordResetCode.objects.filter(email=..., code=..., is_used=False)
.order_by('-created_at').first()`. -/
def latestUnused (codes : List PasswordResetCode) (e c : String) :
    Option PasswordResetCode :=
  (codes.filter (unusedMatch e c)).foldl pickLater none

/-- `UserViewSet.reset_password` (`apps/users/views/user_view.py`).
`hash` is Django's password hasher (`user.set_password`). -/
def reset_password (hash : String → String) (s : Store)
    (email code new_password confirm_password : Option String) (now : Nat) :
    UserResp × Store :=
  if !(truthy email && truthy code && truthy new_password && truthy confirm_password) then
    ({ status := 400, detail := "Todos los campos son requeridos" }, s)
  else if new_password != confirm_password then
    ({ status := 400, detail := "Las contraseñas no coinciden" }, s)
  else
    let e := email.getD ""
    let c := code.getD ""
    match latestUnused s.codes e c with
    | none => ({ status := 400, detail := "Código inválido o expirado" }, s)
    | some rc =>
      if !rc.is_valid now then
        ({ status := 400, detail := "Código inválido o expirado" }, s)
      else
        match s.users.find? (fun u => u.email == e) with
        | none => ({ status := 404, detail := "No existe un usuario con este email" }, s)
        | some u =>
          ({ status := 200, detail := "Contraseña actualizada correctamente" },
           { users := s.users.map (fun v =>
               if v.id == u.id then { v with password := hash (new_password.getD "") } else v),
             codes := s.codes.map (fun x =>
               if x.id == rc.id then { x with is_used := true } else x) })

/-- `UserViewSet.destroy` (`apps/users/views/user_view.py`): the caller may
delete only their own account.  `pk` is the URL path parameter, compared
against `str(request.user.id)`. -/
def destroy (s : Store) (callerId : Nat) (pk : String) : UserResp × Store :=
  if toString callerId != pk then
    ({ status := 403, detail := "Solo puedes eliminar tu propia cuenta" }, s)
  else
    match s.users.find? (fun u => toString u.id == pk) with
    | none => ({ status := 404, detail := "" }, s)
    | some u =>
      ({ status := 204, detail := "" },
       { s with users := s.users.filter (fun v => v.id != u.id) })

/-- A JWT token as issued by `rest_framework_simplejwt`: `RefreshToken.for_user`
mints a refresh token for a user id, and `refresh.access_token` derives the
access token from the refresh token. -/
inductive Token where
  | refreshFor (uid : Nat)
  | accessOf (t : Token)
deriving Repr, DecidableEq

/-- The public user projection returned by `login`. -/
structure UserProj where
  id : Nat
  email : String
  first_name : String
  last_name : String
deriving Repr, DecidableEq

/-- A generic HTTP result: either an error response carrying the `error` text
of the JSON body, or a success carrying a typed body. -/
inductive HttpResult (α : Type) where
  | err (status : Nat) (error : String)
  | ok (status : Nat) (body : α)
deriving Repr, DecidableEq

/-- The HTTP status of a result. -/
def HttpResult.status {α : Type} : HttpResult α → Nat
  | .err s _ => s
  | .ok s _ => s

/-- The success body of `login`: the token pair plus the user projection. -/
structure LoginBody where
  tokens : Token × Token
  user : UserProj
deriving Repr, DecidableEq

/-- `AuthenticationViewSet.login`
(`apps/authentication/views/authentication_view.py`), after serializer
validation.  `check` is Django's `check_password raw stored`; each
`AuthenticationFailed` surfaces as a 401 response. -/
def login (check : String → String → Bool) (users : List User)
    (email password : String) : HttpResult LoginBody :=
  match users.find? (fun u => u.email == email) with
  | none => .err 401 "El usuario con este email no existe"
  | some u =>
    if !check password u.password then .err 401 "Contraseña incorrecta"
    else if !u.is_active then .err 401 "Esta cuenta ha sido desactivada"
    else
      .ok 200
        { tokens := (Token.refreshFor u.id, Token.accessOf (Token.refreshFor u.id)),
          user := { id := u.id, email := u.email,
                    first_name := u.first_name, last_name := u.last_name } }

/-- An upstream institution record, with the fields the view reads
(optional ones are read with `inst.get(..., '')`). -/
structure BelvoInstitution where
  id : Nat
  name : String
  display_name : String
  type : String
  logo : Option String
  icon_logo : Option String
  text_logo : Option String
  country_codes : List String
  website : Option String
deriving Repr, DecidableEq

/-- The reshaped institution record returned by the `institutions` endpoint. -/
structure InstitutionOut where
  id : Nat
  name : String
  display_name : String
  type : String
  logo : String
  icon_logo : String
  text_logo : String
  country_codes : List String
  website : String
deriving Repr, DecidableEq

/-- A paginated upstream page (`count`/`next`/`previous`/`results`). -/
structure Page (α : Type) where
  count : Nat
  next : Option String
  previous : Option String
  results : List α
deriving Repr, DecidableEq

/-- `BelvoAPIViewSet.institutions` (`apps/belvo/views/belvo_view.py`):
passthrough pagination with reshaped results; a `RequestException` maps to
400 with its text. -/
def institutions (fetch : Except String (Page BelvoInstitution)) :
    HttpResult (Page InstitutionOut) :=
  match fetch with
  | .error e => .err 400 e
  | .ok data =>
    .ok 200
      { count := data.count, next := data.next, previous := data.previous,
        results := data.results.map (fun inst =>
          { id := inst.id, name := inst.name, display_name := inst.display_name,
            type := inst.type, logo := inst.logo.getD "",
            icon_logo := inst.icon_logo.getD "", text_logo := inst.text_logo.getD "",
            country_codes := inst.country_codes, website := inst.website.getD "" }) }

/-- An upstream account record; `balance` and `institution` are nested JSON
values passed through opaquely, modelled as strings. -/
structure BelvoAccount where
  id : String
  link : String
  name : String
  category : String
  type : Option String
  balance : String
  currency : String
  institution : String
deriving Repr, DecidableEq

/-- The body of the `accounts` endpoint: count plus reshaped results. -/
structure AccountsBody where
  count : Nat
  results : List BelvoAccount
deriving Repr, DecidableEq

/-- `BelvoAPIViewSet.accounts`: requires `link_id`, then forwards and
reshapes; the reshape copies exactly the embedded fields. -/
def accounts (link_id : Option String)
    (fetch : Except String (Page BelvoAccount)) : HttpResult AccountsBody :=
  if !truthy link_id then .err 400 "Se requiere el link_id"
  else
    match fetch with
    | .error e => .err 400 e
    | .ok data =>
      .ok 200
        { count := data.count,
          results := data.results.map (fun acc =>
            { id := acc.id, link := acc.link, name := acc.name,
              category := acc.category, type := acc.type,
              balance := acc.balance, currency := acc.currency,
              institution := acc.institution }) }

/-- An upstream transaction record, with the fields read by the
`transactions` endpoint; `merchant` is a nested JSON object passed through
opaquely (`t.get('merchant', {})` defaults to the empty object, modelled as
the empty string). -/
structure BelvoTransaction where
  id : String
  amount : Int
  type : String
  category : String
  description : String
  merchant : Option String
  transacted_at : String
  status : String
deriving Repr, DecidableEq

/-- A reshaped transaction in the `transactions` response. -/
structure TransactionOut where
  id : String
  amount : Int
  type : String
  category : String
  description : String
  merchant : String
  transacted_at : String
  status : String
deriving Repr, DecidableEq

/-- The reshaping of one transaction in the `transactions` endpoint. -/
def formatTransaction (t : BelvoTransaction) : TransactionOut :=
  { id := t.id, amount := t.amount, type := t.type, category := t.category,
    description := t.description, merchant := t.merchant.getD "",
    transacted_at := t.transacted_at, status := t.status }

/-- The KPI triple computed by the `transactions` endpoint. -/
structure KPI where
  income : Int
  expenses : Int
  balance : Int
deriving Repr, DecidableEq

/-- The success body of the `transactions` endpoint. -/
structure TransactionsBody where
  kpi : KPI
  transactions : List TransactionOut
deriving Repr, DecidableEq

/-- The four query parameters of the `transactions` endpoint. -/
structure TxParams where
  link_id : Option String
  account_id : Option String
  date_from : Option String
  date_to : Option String
deriving Repr, DecidableEq

/-- An outbound HTTP request to the Belvo API (path relative to the base URL
plus query parameters). -/
structure UpstreamRequest where
  path : String
  params : List (String × String)
deriving Repr, DecidableEq

/-- The validation phase of `BelvoAPIViewSet.transactions`
(`if not all(params.values())`): either the 400 response returned before any
outbound call, or the outbound request that will be issued. -/
def transactionsCall (p : TxParams) : Except (HttpResult TransactionsBody) UpstreamRequest :=
  if !(truthy p.link_id && truthy p.account_id && truthy p.date_from && truthy p.date_to) then
    .error (.err 400 "Todos los parámetros son requeridos")
  else
    .ok { path := "transactions/",
          params := [("link", p.link_id.getD ""), ("account", p.account_id.getD ""),
                     ("date_from", p.date_from.getD ""), ("date_to", p.date_to.getD "")] }

/-- The KPI computation of the `transactions` endpoint:
`income = sum(t['amount'] for t in transactions if t['type'] == 'INFLOW')`,
`expenses` likewise over `'OUTFLOW'`, `balance = income - expenses`. -/
def computeKPI (ts : List BelvoTransaction) : KPI :=
  let income := ((ts.filter (fun t => t.type == "INFLOW")).map (fun t => t.amount)).sum
  let expenses := ((ts.filter (fun t => t.type == "OUTFLOW")).map (fun t => t.amount)).sum
  { income := income, expenses := expenses, balance := income - expenses }

/-- `BelvoAPIViewSet.transactions`: validate, call upstream, compute the KPI
and reshape; a `RequestException` maps to 400 with its text. -/
def transactions (p : TxParams)
    (fetch : UpstreamRequest → Except String (List BelvoTransaction)) :
    HttpResult TransactionsBody :=
  match transactionsCall p with
  | .error r => r
  | .ok req =>
    match fetch req with
    | .error e => .err 400 e
    | .ok ts =>
      .ok 200 { kpi := computeKPI ts, transactions := ts.map formatTransaction }

/-- The nested account of an upstream transaction-details record; nested JSON
values are passed through opaquely, modelled as strings. -/
structure TxDetailAccount where
  id : String
  link : String
  institution : String
  name : String
  category : String
  balance : String
  currency : String
deriving Repr, DecidableEq

/-- An upstream transaction-details record, with the fields the view reads;
`.get(...)` fields are optional, object-valued defaults modelled as "". -/
structure TxDetail where
  id : String
  internal_identification : String
  account : TxDetailAccount
  amount : Int
  local_currency_amount : Int
  currency : String
  description : String
  category : String
  subcategory : Option String
  type : String
  status : String
  merchant : Option String
  credit_card_data : Option String
  transacted_at : String
  created_at : String
  value_date : Option String
  payment_type : Option String
  operation_type : Option String
  operation_type_additional_info : Option String
  counterparty : Option String
  loan_data : Option String
deriving Repr, DecidableEq

/-- The reshaped body of the `transaction_details` endpoint. -/
structure TxDetailOut where
  id : String
  internal_identification : String
  account : TxDetailAccount
  amount : Int
  local_currency_amount : Int
  currency : String
  description : String
  category : String
  subcategory : Option String
  type : String
  status : String
  merchant : String
  credit_card_data : String
  transacted_at : String
  created_at : String
  value_date : Option String
  payment_type : Option String
  operation_type : Option String
  operation_type_additional_info : Option String
  counterparty : String
  loan_data : String
deriving Repr, DecidableEq

/-- `BelvoAPIViewSet.transaction_details`: GET a single resource and reshape;
a `RequestException` maps to 404 with its text (unlike the other endpoints). -/
def transaction_details (fetch : Except String TxDetail) : HttpResult TxDetailOut :=
  match fetch with
  | .error e => .err 404 e
  | .ok t =>
    .ok 200
      { id := t.id, internal_identification := t.internal_identification,
        account := { id := t.account.id, link := t.account.link,
                     institution := t.account.institution, name := t.account.name,
                     category := t.account.category, balance := t.account.balance,
                     currency := t.account.currency },
        amount := t.amount, local_currency_amount := t.local_currency_amount,
        currency := t.currency, description := t.description,
        category := t.category, subcategory := t.subcategory, type := t.type,
        status := t.status, merchant := t.merchant.getD "",
        credit_card_data := t.credit_card_data.getD "",
        transacted_at := t.transacted_at, created_at := t.created_at,
        value_date := t.value_date, payment_type := t.payment_type,
        operation_type := t.operation_type,
        operation_type_additional_info := t.operation_type_additional_info,
        counterparty := t.counterparty.getD "", loan_data := t.loan_data.getD "" }

/-- One successfully created-and-registered link in `create_test_links`
(`{'link': link, 'accounts_registered': True}`); the link JSON is opaque. -/
structure CreatedLink where
  link : String
  accounts_registered : Bool
deriving Repr, DecidableEq

/-- The success body of `create_test_links`. -/
structure CreateLinksBody where
  message : String
  links : List CreatedLink
deriving Repr, DecidableEq

/-- `BelvoAPIViewSet.create_test_links`: for each test credential the view
creates a link and registers its accounts; `outcomes` is the per-credential
result of those two upstream calls.  A `RequestException` on a credential is
caught inside the loop and that credential skipped (`continue`), so the view
answers 201 with the successfully created links regardless of upstream
failures. -/
def create_test_links (outcomes : List (Except String String)) :
    HttpResult CreateLinksBody :=
  let created := (outcomes.filterMap Except.toOption).map
    (fun l => { link := l, accounts_registered := true : CreatedLink })
  .ok 201
    { message := "Se crearon y registraron " ++ toString created.length ++ " links exitosamente",
      links := created }

/-- An upstream link record, with the fields read by `all_accounts`. -/
structure BelvoLink where
  id : String
  institution : String
  status : String
deriving Repr, DecidableEq

/-- The 5-field account summary used in the `all_accounts` body. -/
structure AccountSummary where
  id : String
  name : String
  category : String
  balance : String
  currency : String
deriving Repr, DecidableEq

/-- A per-institution entry of the `all_accounts` body. -/
structure InstitutionAccounts where
  institution_name : String
  link_id : String
  accounts : List AccountSummary
deriving Repr, DecidableEq

/-- The success body of `all_accounts`. -/
structure AllAccountsBody where
  total_accounts : Nat
  institutions : List InstitutionAccounts
deriving Repr, DecidableEq

/-- `BelvoAPIViewSet.all_accounts`: fetch all links (an upstream failure here
maps to 400 with its text), keep those with status `valid`, and for each
fetch its accounts, skipping links whose fetch fails and links with no
accounts. -/
def all_accounts (linksFetch : Except String (List BelvoLink))
    (accountsFor : String → Except String (List BelvoAccount)) :
    HttpResult AllAccountsBody :=
  match linksFetch with
  | .error e => .err 400 e
  | .ok links =>
    let entries := (links.filter (fun l => l.status == "valid")).filterMap
      (fun l =>
        match accountsFor l.id with
        | .error _ => none
        | .ok accs =>
          if accs.isEmpty then none
          else some { institution_name := l.institution, link_id := l.id,
                      accounts := accs.map (fun acc =>
                        { id := acc.id, name := acc.name, category := acc.category,
                          balance := acc.balance, currency := acc.currency }) :
                      InstitutionAccounts })
    .ok 200
      { total_accounts := (entries.map (fun en => en.accounts.length)).sum,
        institutions := entries }

/-! Helper lemmas about the embedded operations. -/

theorem foldl_pickLater_none (l : List PasswordResetCode) :
    ∀ acc, l.foldl pickLater acc = none → acc = none ∧ l = [] := by
  induction l with
  | nil => intro acc h; exact ⟨h, rfl⟩
  | cons x xs ih =>
    intro acc h
    rw [List.foldl_cons] at h
    have := (ih (pickLater acc x) h).1
    cases acc with
    | none => simp [pickLater] at this
    | some b => simp only [pickLater] at this; split at this <;> simp at this

theorem foldl_pickLater_mem (l : List PasswordResetCode) :
    ∀ acc r, l.foldl pickLater acc = some r → r ∈ l ∨ acc = some r := by
  induction l with
  | nil => intro acc r h; exact Or.inr h
  | cons x xs ih =>
    intro acc r h
    rw [List.foldl_cons] at h
    rcases ih (pickLater acc x) r h with hmem | hacc
    · exact Or.inl (List.mem_cons_of_mem x hmem)
    · cases acc with
      | none =>
        simp only [pickLater] at hacc
        exact Or.inl (by rw [← Option.some_inj.mp hacc]; exact List.mem_cons_self x xs)
      | some b =>
        simp only [pickLater] at hacc
        split at hacc
        · exact Or.inl (by rw [← Option.some_inj.mp hacc]; exact List.mem_cons_self x xs)
        · exact Or.inr hacc

theorem foldl_pickLater_le (l : List PasswordResetCode) :
    ∀ acc r, l.foldl pickLater acc = some r →
      (∀ x ∈ l, x.created_at ≤ r.created_at) ∧
      (∀ b, acc = some b → b.created_at ≤ r.created_at) := by
  induction l with
  | nil =>
    intro acc r h
    refine ⟨by simp, fun b hb => ?_⟩
    rw [hb] at h
    cases h
    exact Nat.le_refl _
  | cons x xs ih =>
    intro acc r h
    rw [List.foldl_cons] at h
    obtain ⟨hxs, hacc⟩ := ih (pickLater acc x) r h
    have hx : x.created_at ≤ r.created_at := by
      cases acc with
      | none => exact hacc x rfl
      | some a =>
        by_cases hlt : a.created_at < x.created_at
        · exact hacc x (by simp [pickLater, hlt])
        · exact Nat.le_trans (Nat.le_of_not_lt hlt) (hacc a (by simp [pickLater, hlt]))
    refine ⟨fun y hy => ?_, fun b hb => ?_⟩
    · rcases List.mem_cons.mp hy with rfl | hy
      · exact hx
      · exact hxs y hy
    · subst hb
      by_cases hlt : b.created_at < x.created_at
      · exact Nat.le_trans (Nat.le_of_lt hlt) (hacc x (by simp [pickLater, hlt]))
      · exact hacc b (by simp [pickLater, hlt])

theorem latestUnused_mem {codes : List PasswordResetCode} {e c : String}
    {rc : PasswordResetCode} (h : latestUnused codes e c = some rc) :
    rc ∈ codes ∧ unusedMatch e c rc = true := by
  rcases foldl_pickLater_mem _ none rc h with hmem | hacc
  · exact ⟨(List.mem_filter.mp hmem).1, (List.mem_filter.mp hmem).2⟩
  · cases hacc

theorem latestUnused_max {codes : List PasswordResetCode} {e c : String}
    {rc : PasswordResetCode} (h : latestUnused codes e c = some rc) :
    ∀ x ∈ codes, unusedMatch e c x = true → x.created_at ≤ rc.created_at := by
  intro x hx hmx
  exact (foldl_pickLater_le _ none rc h).1 x (List.mem_filter.mpr ⟨hx, hmx⟩)

theorem latestUnused_isSome {codes : List PasswordResetCode} {e c : String}
    {rc0 : PasswordResetCode} (h0 : rc0 ∈ codes) (hm : unusedMatch e c rc0 = true) :
    ∃ rc, latestUnused codes e c = some rc := by
  cases hlu : latestUnused codes e c with
  | some rc => exact ⟨rc, rfl⟩
  | none =>
    have := (foldl_pickLater_none _ none hlu).2
    have : rc0 ∈ ([] : List PasswordResetCode) := this ▸ List.mem_filter.mpr ⟨h0, hm⟩
    cases this

theorem unusedMatch_eq {e c : String} {rc : PasswordResetCode}
    (h : unusedMatch e c rc = true) :
    rc.email = e ∧ rc.code = c ∧ rc.is_used = false := by
  simp only [unusedMatch, Bool.and_eq_true, beq_iff_eq, Bool.not_eq_true'] at h
  exact ⟨h.1.1, h.1.2, h.2⟩

theorem markUsedFor_not_unused (e : String) (y : PasswordResetCode) :
    ((markUsedFor e y).email == e && !(markUsedFor e y).is_used) = false := by
  by_cases h : (y.email == e && !y.is_used) = true
  · simp [markUsedFor, h]
  · simp only [markUsedFor, if_neg h]
    exact Bool.eq_false_iff.mpr (fun hc => h hc)

/-- C4: for every provided email with no existing user, `request_code`
answers 404 NotFound and leaves the store — in particular the
password-reset table — unchanged. -/
theorem request_code_unknown_email
    (s : Store) (e : String) (now : Nat) (newCode : String)
    (emailErr : Option String) (hne : e ≠ "")
    (hno : ∀ u ∈ s.users, u.email ≠ e) :
    request_code s (some e) now newCode emailErr =
      ({ status := 404, detail := "No existe un usuario con este email" }, s) := by
  have htruthy : truthy (some e) = true := by simp [truthy, hne]
  have hfind : s.users.find? (fun u => u.email == e) = none := by
    rw [List.find?_eq_none]
    intro u hu
    simp only [beq_iff_eq]
    exact hno u hu
  simp [request_code, htruthy, hfind]

/-- Witness for C4 at a concrete store holding one user and one code. -/
theorem request_code_unknown_email_witness :
    request_code
        { users := [{ id := 1, email := "ana@example.com", password := "h1",
                      first_name := "Ana", last_name := "Diaz", is_active := true }],
          codes := [{ id := 1, email := "bob@example.com", code := "AAAA1111",
                      is_used := false, created_at := 0, expires_at := 600 }] }
        (some "bob@example.com") 50 "BBBB2222" none =
      ({ status := 404, detail := "No existe un usuario con este email" },
       { users := [{ id := 1, email := "ana@example.com", password := "h1",
                     first_name := "Ana", last_name := "Diaz", is_active := true }],
         codes := [{ id := 1, email := "bob@example.com", code := "AAAA1111",
                     is_used := false, created_at := 0, expires_at := 600 }] }) :=
  request_code_unknown_email _ _ _ _ _ (by decide) (by decide)

/-- C5: deleting an account whose path id differs from the caller's id fails
with 403 Forbidden and leaves the store unchanged. -/
theorem destroy_forbidden_frame (s : Store) (callerId : Nat) (pk : String)
    (h : toString callerId ≠ pk) :
    destroy s callerId pk =
      ({ status := 403, detail := "Solo puedes eliminar tu propia cuenta" }, s) := by
  simp [destroy, h]

/-- Witness for C5: caller 1 attempting to delete user 2. -/
theorem destroy_forbidden_frame_witness :
    destroy
        { users := [{ id := 2, email := "ana@example.com", password := "h1",
                      first_name := "Ana", last_name := "Diaz", is_active := true }],
          codes := [] }
        1 "2" =
      ({ status := 403, detail := "Solo puedes eliminar tu propia cuenta" },
       { users := [{ id := 2, email := "ana@example.com", password := "h1",
                     first_name := "Ana", last_name := "Diaz", is_active := true }],
         codes := [] }) :=
  destroy_forbidden_frame _ _ _ (by decide)

/-- C6: a `transactions` request with any of the four parameters missing is
rejected with 400 before any outbound request is built, and the endpoint
answers 400 regardless of the upstream behaviour. -/
theorem transactions_missing_param (p : TxParams)
    (h : p.link_id = none ∨ p.account_id = none ∨ p.date_from = none ∨ p.date_to = none) :
    transactionsCall p = .error (.err 400 "Todos los parámetros son requeridos")
    ∧ ∀ fetch, transactions p fetch = .err 400 "Todos los parámetros son requeridos" := by
  have hcond : (truthy p.link_id && truthy p.account_id &&
      truthy p.date_from && truthy p.date_to) = false := by
    rcases h with h | h | h | h <;> simp [h, truthy]
  have hcall : transactionsCall p = .error (.err 400 "Todos los parámetros son requeridos") := by
    simp [transactionsCall, hcond]
  exact ⟨hcall, fun fetch => by simp [transactions, hcall]⟩

/-- Witness for C6: a request missing `date_to`. -/
theorem transactions_missing_param_witness :
    transactionsCall
        { link_id := some "l1", account_id := some "a1",
          date_from := some "2024-01-01", date_to := none } =
      .error (.err 400 "Todos los parámetros son requeridos") :=
  (transactions_missing_param _ (by simp)).1

theorem sum_map_filter (p : BelvoTransaction → Bool) (l : List BelvoTransaction) :
    ((l.filter p).map (fun t => t.amount)).sum
      = (l.map (fun t => if p t then t.amount else 0)).sum := by
  induction l with
  | nil => rfl
  | cons t ts ih =>
    by_cases h : p t = true
    · simp [List.filter_cons, h, ih]
    · simp [List.filter_cons, h, ih]

theorem computeKPI_eq (ts : List BelvoTransaction) :
    computeKPI ts =
      { income := (ts.map (fun t => if t.type == "INFLOW" then t.amount else 0)).sum,
        expenses := (ts.map (fun t => if t.type == "OUTFLOW" then t.amount else 0)).sum,
        balance := (ts.map (fun t => if t.type == "INFLOW" then t.amount else 0)).sum
          - (ts.map (fun t => if t.type == "OUTFLOW" then t.amount else 0)).sum } := by
  simp [computeKPI, sum_map_filter]

/-- C3: on a successful upstream page, `transactions` computes income as the
sum of INFLOW amounts, expenses as the sum of OUTFLOW amounts and balance as
their difference, returning the reshaped list; on the page
`[100 INFLOW, 30 OUTFLOW, 20 OUTFLOW]` it answers income 100, expenses 50,
balance 50. -/
theorem transactions_kpi_spec :
    (∀ (p : TxParams) (fetch : UpstreamRequest → Except String (List BelvoTransaction))
        (req : UpstreamRequest) (ts : List BelvoTransaction),
        transactionsCall p = .ok req → fetch req = .ok ts →
        transactions p fetch =
          .ok 200
            { kpi :=
                { income := (ts.map (fun t => if t.type == "INFLOW" then t.amount else 0)).sum,
                  expenses := (ts.map (fun t => if t.type == "OUTFLOW" then t.amount else 0)).sum,
                  balance := (ts.map (fun t => if t.type == "INFLOW" then t.amount else 0)).sum
                    - (ts.map (fun t => if t.type == "OUTFLOW" then t.amount else 0)).sum },
              transactions := ts.map formatTransaction })
  ∧ transactions
        { link_id := some "l1", account_id := some "a1",
          date_from := some "2024-01-01", date_to := some "2024-01-31" }
        (fun _ => .ok
          [{ id := "t1", amount := 100, type := "INFLOW", category := "c",
             description := "d", merchant := none, transacted_at := "x", status := "PROCESSED" },
           { id := "t2", amount := 30, type := "OUTFLOW", category := "c",
             description := "d", merchant := none, transacted_at := "x", status := "PROCESSED" },
           { id := "t3", amount := 20, type := "OUTFLOW", category := "c",
             description := "d", merchant := none, transacted_at := "x", status := "PROCESSED" }]) =
      .ok 200
        { kpi := { income := 100, expenses := 50, balance := 50 },
          transactions :=
            [{ id := "t1", amount := 100, type := "INFLOW", category := "c",
               description := "d", merchant := "", transacted_at := "x", status := "PROCESSED" },
             { id := "t2", amount := 30, type := "OUTFLOW", category := "c",
               description := "d", merchant := "", transacted_at := "x", status := "PROCESSED" },
             { id := "t3", amount := 20, type := "OUTFLOW", category := "c",
               description := "d", merchant := "", transacted_at := "x", status := "PROCESSED" }] } := by
  constructor
  · intro p fetch req ts hc hf
    simp [transactions, hc, hf, computeKPI_eq]
  · decide

/-- Witness for C3, applying the universal part on the spec's test page. -/
theorem transactions_kpi_spec_witness :
    transactions
        { link_id := some "l1", account_id := some "a1",
          date_from := some "2024-02-01", date_to := some "2024-02-29" }
        (fun _ => .ok
          [{ id := "u1", amount := 7, type := "INFLOW", category := "c",
             description := "d", merchant := none, transacted_at := "x", status := "PROCESSED" },
           { id := "u2", amount := 5, type := "OUTFLOW", category := "c",
             description := "d", merchant := none, transacted_at := "x", status := "PROCESSED" }]) =
      .ok 200
        { kpi := { income := 7, expenses := 5, balance := 2 },
          transactions :=
            [{ id := "u1", amount := 7, type := "INFLOW", category := "c",
               description := "d", merchant := "", transacted_at := "x", status := "PROCESSED" },
             { id := "u2", amount := 5, type := "OUTFLOW", category := "c",
               description := "d", merchant := "", transacted_at := "x", status := "PROCESSED" }] } :=
  (transactions_kpi_spec.1
      { link_id := some "l1", account_id := some "a1",
        date_from := some "2024-02-01", date_to := some "2024-02-29" }
      (fun _ => .ok
        [{ id := "u1", amount := 7, type := "INFLOW", category := "c",
           description := "d", merchant := none, transacted_at := "x", status := "PROCESSED" },
         { id := "u2", amount := 5, type := "OUTFLOW", category := "c",
           description := "d", merchant := none, transacted_at := "x", status := "PROCESSED" }])
      { path := "transactions/",
        params := [("link", "l1"), ("account", "a1"),
                   ("date_from", "2024-02-01"), ("date_to", "2024-02-29")] }
      [{ id := "u1", amount := 7, type := "INFLOW", category := "c",
         description := "d", merchant := none, transacted_at := "x", status := "PROCESSED" },
       { id := "u2", amount := 5, type := "OUTFLOW", category := "c",
         description := "d", merchant := none, transacted_at := "x", status := "PROCESSED" }]
      rfl rfl).trans (by decide)

theorem filter_flows_inflow (ts : List BelvoTransaction) :
    (ts.filter (fun t => t.type == "INFLOW" || t.type == "OUTFLOW")).filter
        (fun t => t.type == "INFLOW")
      = ts.filter (fun t => t.type == "INFLOW") := by
  induction ts with
  | nil => rfl
  | cons t ts ih =>
    by_cases h1 : (t.type == "INFLOW") = true
    · simp [List.filter_cons, h1, ih]
    · by_cases h2 : (t.type == "OUTFLOW") = true
      · simp [List.filter_cons, h1, h2, ih]
      · simp [List.filter_cons, h1, h2, ih]

theorem filter_flows_outflow (ts : List BelvoTransaction) :
    (ts.filter (fun t => t.type == "INFLOW" || t.type == "OUTFLOW")).filter
        (fun t => t.type == "OUTFLOW")
      = ts.filter (fun t => t.type == "OUTFLOW") := by
  induction ts with
  | nil => rfl
  | cons t ts ih =>
    by_cases h1 : (t.type == "INFLOW") = true
    · by_cases h2 : (t.type == "OUTFLOW") = true
      · simp [List.filter_cons, h1, h2, ih]
      · simp [List.filter_cons, h1, h2, ih]
    · by_cases h2 : (t.type == "OUTFLOW") = true
      · simp [List.filter_cons, h1, h2, ih]
      · simp [List.filter_cons, h1, h2, ih]

theorem computeKPI_filter_flows (ts : List BelvoTransaction) :
    computeKPI (ts.filter (fun t => t.type == "INFLOW" || t.type == "OUTFLOW"))
      = computeKPI ts := by
  simp only [computeKPI, filter_flows_inflow, filter_flows_outflow]

/-- C10: a transaction whose type is neither INFLOW nor OUTFLOW is included
in the returned list but counted in neither income nor expenses: the KPI
over the full page equals the KPI over its INFLOW/OUTFLOW subset, and the
balance is income minus expenses over those subsets. -/
theorem transactions_nonflow_passthrough :
    ∀ (p : TxParams) (fetch : UpstreamRequest → Except String (List BelvoTransaction))
      (req : UpstreamRequest) (ts : List BelvoTransaction),
      transactionsCall p = .ok req → fetch req = .ok ts →
      transactions p fetch =
        .ok 200
          { kpi := computeKPI (ts.filter (fun t => t.type == "INFLOW" || t.type == "OUTFLOW")),
            transactions := ts.map formatTransaction }
      ∧ (computeKPI ts).balance = (computeKPI ts).income - (computeKPI ts).expenses := by
  intro p fetch req ts hc hf
  refine ⟨?_, rfl⟩
  simp [transactions, hc, hf, computeKPI_filter_flows]

/-- Witness for C10 on a page holding a PENDING-type transaction. -/
theorem transactions_nonflow_passthrough_witness :
    transactions
        { link_id := some "l9", account_id := some "a9",
          date_from := some "2024-03-01", date_to := some "2024-03-31" }
        (fun _ => .ok
          [{ id := "v1", amount := 11, type := "INFLOW", category := "c",
             description := "d", merchant := none, transacted_at := "x", status := "PROCESSED" },
           { id := "v2", amount := 999, type := "PENDING", category := "c",
             description := "d", merchant := none, transacted_at := "x", status := "PROCESSED" }]) =
      .ok 200
        { kpi := computeKPI
            ([{ id := "v1", amount := 11, type := "INFLOW", category := "c",
                description := "d", merchant := none, transacted_at := "x",
                status := "PROCESSED" },
              { id := "v2", amount := 999, type := "PENDING", category := "c",
                description := "d", merchant := none, transacted_at := "x",
                status := "PROCESSED" }].filter
              (fun t => t.type == "INFLOW" || t.type == "OUTFLOW")),
          transactions :=
            [{ id := "v1", amount := 11, type := "INFLOW", category := "c",
               description := "d", merchant := "", transacted_at := "x", status := "PROCESSED" },
             { id := "v2", amount := 999, type := "PENDING", category := "c",
               description := "d", merchant := "", transacted_at := "x", status := "PROCESSED" }] } :=
  ((transactions_nonflow_passthrough
      { link_id := some "l9", account_id := some "a9",
        date_from := some "2024-03-01", date_to := some "2024-03-31" }
      (fun _ => .ok
        [{ id := "v1", amount := 11, type := "INFLOW", category := "c",
           description := "d", merchant := none, transacted_at := "x", status := "PROCESSED" },
         { id := "v2", amount := 999, type := "PENDING", category := "c",
           description := "d", merchant := none, transacted_at := "x", status := "PROCESSED" }])
      { path := "transactions/",
        params := [("link", "l9"), ("account", "a9"),
                   ("date_from", "2024-03-01"), ("date_to", "2024-03-31")] }
      [{ id := "v1", amount := 11, type := "INFLOW", category := "c",
         description := "d", merchant := none, transacted_at := "x", status := "PROCESSED" },
       { id := "v2", amount := 999, type := "PENDING", category := "c",
         description := "d", merchant := none, transacted_at := "x", status := "PROCESSED" }]
      rfl rfl).1).trans (by decide)

/-- C7: `login` answers 401 Unauthorized when no user has the email, when the
stored hash does not verify against the supplied password, or when the
account is inactive; otherwise it answers 200 with a refresh token, an
access token derived from it, and the public user projection. -/
theorem login_spec (check : String → String → Bool) (users : List User)
    (e pwd : String) :
    (users.find? (fun u => u.email == e) = none →
      login check users e pwd = .err 401 "El usuario con este email no existe")
  ∧ (∀ u, users.find? (fun u => u.email == e) = some u →
      (check pwd u.password = false →
        login check users e pwd = .err 401 "Contraseña incorrecta")
    ∧ (check pwd u.password = true → u.is_active = false →
        login check users e pwd = .err 401 "Esta cuenta ha sido desactivada")
    ∧ (check pwd u.password = true → u.is_active = true →
        login check users e pwd =
          .ok 200
            { tokens := (Token.refreshFor u.id, Token.accessOf (Token.refreshFor u.id)),
              user := { id := u.id, email := u.email,
                        first_name := u.first_name, last_name := u.last_name } })) := by
  refine ⟨fun hnone => ?_, fun u hu => ⟨fun hpw => ?_, fun hpw hact => ?_, fun hpw hact => ?_⟩⟩
  · simp [login, hnone]
  · simp [login, hu, hpw]
  · simp [login, hu, hpw, hact]
  · simp [login, hu, hpw, hact]

/-- Witness for C7: the four login outcomes on concrete one-user stores,
with equality of hash and password as the checker. -/
theorem login_spec_witness :
    login (fun raw stored => raw == stored) [] "ana@example.com" "pw" =
      .err 401 "El usuario con este email no existe"
  ∧ login (fun raw stored => raw == stored)
        [{ id := 3, email := "ana@example.com", password := "secret",
           first_name := "Ana", last_name := "Diaz", is_active := true }]
        "ana@example.com" "wrong" =
      .err 401 "Contraseña incorrecta"
  ∧ login (fun raw stored => raw == stored)
        [{ id := 3, email := "ana@example.com", password := "secret",
           first_name := "Ana", last_name := "Diaz", is_active := false }]
        "ana@example.com" "secret" =
      .err 401 "Esta cuenta ha sido desactivada"
  ∧ login (fun raw stored => raw == stored)
        [{ id := 3, email := "ana@example.com", password := "secret",
           first_name := "Ana", last_name := "Diaz", is_active := true }]
        "ana@example.com" "secret" =
      .ok 200
        { tokens := (Token.refreshFor 3, Token.accessOf (Token.refreshFor 3)),
          user := { id := 3, email := "ana@example.com",
                    first_name := "Ana", last_name := "Diaz" } } :=
  ⟨(login_spec (fun raw stored => raw == stored) [] "ana@example.com" "pw").1 rfl,
   ((login_spec (fun raw stored => raw == stored)
        [{ id := 3, email := "ana@example.com", password := "secret",
           first_name := "Ana", last_name := "Diaz", is_active := true }]
        "ana@example.com" "wrong").2 _ rfl).1 (by decide),
   (((login_spec (fun raw stored => raw == stored)
        [{ id := 3, email := "ana@example.com", password := "secret",
           first_name := "Ana", last_name := "Diaz", is_active := false }]
        "ana@example.com" "secret").2 _ rfl).2.1 (by decide) rfl),
   (((login_spec (fun raw stored => raw == stored)
        [{ id := 3, email := "ana@example.com", password := "secret",
           first_name := "Ana", last_name := "Diaz", is_active := true }]
        "ana@example.com" "secret").2 _ rfl).2.2 (by decide) rfl)⟩

/-- Counterexample to C8 as stated: an upstream failure on the only test
credential leaves `create_test_links` answering 201, not 400. -/
theorem create_test_links_upstream_status :
    (create_test_links [Except.error "500 Server Error"]).status ≠ 400
    ∧ (create_test_links [Except.error "500 Server Error"]).status = 201 := by
  constructor
  · decide
  · rfl

/-- C8 (amended): `transaction_details` maps any upstream error to 404 with
the error text; `institutions`, `accounts` (given a link id) and
`transactions` (given its four parameters) map upstream errors to 400 with
the error text, as does `all_accounts` for its initial links fetch; but
`create_test_links` swallows per-credential upstream failures and answers
201 regardless. -/
theorem upstream_error_mapping :
    (∀ e, transaction_details (.error e) = .err 404 e)
  ∧ (∀ e, institutions (.error e) = .err 400 e)
  ∧ (∀ e lid, lid ≠ "" → accounts (some lid) (.error e) = .err 400 e)
  ∧ (∀ e (p : TxParams) (req : UpstreamRequest), transactionsCall p = .ok req →
      transactions p (fun _ => .error e) = .err 400 e)
  ∧ (∀ e accountsFor, all_accounts (.error e) accountsFor = .err 400 e)
  ∧ (∀ outcomes, (create_test_links outcomes).status = 201) := by
  refine ⟨fun e => rfl, fun e => rfl, fun e lid hl => ?_, fun e p req hc => ?_,
    fun e accountsFor => rfl, fun outcomes => rfl⟩
  · simp [accounts, truthy, hl]
  · simp [transactions, hc]

/-- Witness for C8 (amended) at concrete error texts and parameters. -/
theorem upstream_error_mapping_witness :
    accounts (some "l1") (.error "boom") = .err 400 "boom"
    ∧ transactions
        { link_id := some "l1", account_id := some "a1",
          date_from := some "2024-01-01", date_to := some "2024-01-31" }
        (fun _ => .error "boom") = .err 400 "boom" :=
  ⟨upstream_error_mapping.2.2.1 "boom" "l1" (by decide),
   upstream_error_mapping.2.2.2.1 "boom"
      { link_id := some "l1", account_id := some "a1",
        date_from := some "2024-01-01", date_to := some "2024-01-31" }
      { path := "transactions/",
        params := [("link", "l1"), ("account", "a1"),
                   ("date_from", "2024-01-01"), ("date_to", "2024-01-31")] }
      rfl⟩

theorem reset_fails_of_all_used (hash : String → String) (s : Store) (e c : String)
    (np cp : Option String) (now : Nat)
    (h : ∀ rc ∈ s.codes, rc.email = e → rc.code = c → rc.is_used = true) :
    ((reset_password hash s (some e) (some c) np cp now).1).status ≠ 200 := by
  have hlu : latestUnused s.codes e c = none := by
    cases hx : latestUnused s.codes e c with
    | none => rfl
    | some rc =>
      obtain ⟨hmem, hm⟩ := latestUnused_mem hx
      obtain ⟨he, hc2, hu⟩ := unusedMatch_eq hm
      rw [h rc hmem he hc2] at hu
      exact Bool.noConfusion hu
  simp only [reset_password, Option.getD_some, hlu]
  split
  · simp
  · split
    · simp
    · simp

theorem reset_success_inversion (hash : String → String) (s : Store) (e c : String)
    (np cp : Option String) (now : Nat) (r : UserResp) (s' : Store)
    (hEq : reset_password hash s (some e) (some c) np cp now = (r, s'))
    (h200 : r.status = 200) :
    ∃ rc u, latestUnused s.codes e c = some rc ∧ rc.is_valid now = true ∧
      s.users.find? (fun v => v.email == e) = some u ∧
      s'.codes = s.codes.map
        (fun x => if x.id == rc.id then { x with is_used := true } else x) := by
  cases hA : (truthy (some e) && truthy (some c) && truthy np && truthy cp) with
  | false =>
    exfalso
    simp only [reset_password, hA, Bool.not_false, if_true] at hEq
    have h4 : (400 : Nat) = r.status := congrArg (fun q => q.1.status) hEq
    rw [h200] at h4
    exact absurd h4 (by decide)
  | true =>
    cases hB : (np != cp) with
    | true =>
      exfalso
      simp only [reset_password, hA, hB, Bool.not_true, Bool.false_eq_true,
        if_false, if_true] at hEq
      have h4 : (400 : Nat) = r.status := congrArg (fun q => q.1.status) hEq
      rw [h200] at h4
      exact absurd h4 (by decide)
    | false =>
      cases hlu : latestUnused s.codes e c with
      | none =>
        exfalso
        simp only [reset_password, hA, hB, Option.getD_some, hlu, Bool.not_true,
          Bool.false_eq_true, if_false] at hEq
        have h4 : (400 : Nat) = r.status := congrArg (fun q => q.1.status) hEq
        rw [h200] at h4
        exact absurd h4 (by decide)
      | some rc =>
        cases hval : rc.is_valid now with
        | false =>
          exfalso
          simp only [reset_password, hA, hB, Option.getD_some, hlu, hval,
            Bool.not_true, Bool.not_false, Bool.false_eq_true, if_false, if_true] at hEq
          have h4 : (400 : Nat) = r.status := congrArg (fun q => q.1.status) hEq
          rw [h200] at h4
          exact absurd h4 (by decide)
        | true =>
          cases hfind : s.users.find? (fun v => v.email == e) with
          | none =>
            exfalso
            simp only [reset_password, hA, hB, Option.getD_some, hlu, hval, hfind,
              Bool.not_true, Bool.not_false, Bool.false_eq_true, if_false, if_true] at hEq
            have h4 : (404 : Nat) = r.status := congrArg (fun q => q.1.status) hEq
            rw [h200] at h4
            exact absurd h4 (by decide)
          | some u =>
            refine ⟨rc, u, rfl, hval, rfl, ?_⟩
            simp only [reset_password, hA, hB, Option.getD_some, hlu, hval, hfind,
              Bool.not_true, Bool.not_false, Bool.false_eq_true, if_false, if_true] at hEq
            have h5 := congrArg (fun q => q.2.codes) hEq
            exact h5.symm

/-- C1: a reset code is valid iff it is unconsumed and the current time is
strictly before its expiration (creation plus 600 seconds, as the save path
sets it); in a store whose matching codes are all consumed, `reset_password`
cannot succeed; and once a code is consumed by a successful `reset_password`
(the matching unused code being unique, as `request_code` guarantees), every
subsequent reset attempt with the same email and code fails. -/
theorem reset_code_validity_single_use :
    (∀ (rc : PasswordResetCode) (now : Nat), rc.expires_at = rc.created_at + 600 →
      (rc.is_valid now = true ↔ rc.is_used = false ∧ now < rc.created_at + 600))
  ∧ (∀ (hash : String → String) (s : Store) (e c : String) (np cp : Option String) (now : Nat),
      (∀ rc ∈ s.codes, rc.email = e → rc.code = c → rc.is_used = true) →
      ((reset_password hash s (some e) (some c) np cp now).1).status ≠ 200)
  ∧ (∀ (hash : String → String) (s : Store) (e c : String) (np cp : Option String)
      (now : Nat) (r : UserResp) (s' : Store),
      reset_password hash s (some e) (some c) np cp now = (r, s') →
      r.status = 200 →
      (∀ rc1 ∈ s.codes, ∀ rc2 ∈ s.codes,
        unusedMatch e c rc1 = true → unusedMatch e c rc2 = true → rc1 = rc2) →
      ∀ (hash2 : String → String) (np2 cp2 : Option String) (now2 : Nat),
        ((reset_password hash2 s' (some e) (some c) np2 cp2 now2).1).status ≠ 200) := by
  refine ⟨?_, ?_, ?_⟩
  · intro rc now h
    simp [PasswordResetCode.is_valid, h, Bool.and_eq_true, Bool.not_eq_true',
      decide_eq_true_iff]
  · intro hash s e c np cp now h
    exact reset_fails_of_all_used hash s e c np cp now h
  · intro hash s e c np cp now r s' hEq h200 huniq hash2 np2 cp2 now2
    obtain ⟨rc, u, hlu, hval, hfind, hcodes⟩ :=
      reset_success_inversion hash s e c np cp now r s' hEq h200
    obtain ⟨hrcmem, hrcm⟩ := latestUnused_mem hlu
    refine reset_fails_of_all_used hash2 s' e c np2 cp2 now2 ?_
    intro x' hx' he' hc'
    rw [hcodes] at hx'
    obtain ⟨x, hxmem, hxeq⟩ := List.mem_map.mp hx'
    by_cases hid : (x.id == rc.id) = true
    · rw [if_pos hid] at hxeq
      rw [← hxeq]
    · rw [if_neg hid] at hxeq
      subst hxeq
      by_cases hu : x.is_used = true
      · exact hu
      · exfalso
        have hxm : unusedMatch e c x = true := by
          simp [unusedMatch, he', hc', Bool.eq_false_iff.mpr hu]
        have := huniq x hxmem rc hrcmem hxm hrcm
        subst this
        exact hid (by simp)

/-- Witness for C1: validity of a fresh code at time 10, failure on a store
whose only matching code is consumed, and failure of a second reset after a
successful one. -/
theorem reset_code_validity_single_use_witness :
    (PasswordResetCode.is_valid
        { id := 1, email := "a@b.c", code := "CODE1234", is_used := false,
          created_at := 0, expires_at := 600 } 10 = true ↔
      ({ id := 1, email := "a@b.c", code := "CODE1234", is_used := false,
         created_at := 0, expires_at := 600 : PasswordResetCode }.is_used = false ∧
       10 < ({ id := 1, email := "a@b.c", code := "CODE1234", is_used := false,
               created_at := 0, expires_at := 600 : PasswordResetCode }).created_at + 600))
  ∧ ((reset_password (fun p => p)
        { users := [{ id := 7, email := "ana@example.com", password := "old",
                      first_name := "Ana", last_name := "Diaz", is_active := true }],
          codes := [{ id := 4, email := "ana@example.com", code := "GOODCODE",
                      is_used := true, created_at := 0, expires_at := 600 }] }
        (some "ana@example.com") (some "GOODCODE") (some "x") (some "x") 50).1).status ≠ 200
  ∧ ((reset_password (fun p => p)
        { users := [{ id := 7, email := "ana@example.com", password := "npw",
                      first_name := "Ana", last_name := "Diaz", is_active := true }],
          codes := [{ id := 4, email := "ana@example.com", code := "GOODCODE",
                      is_used := true, created_at := 0, expires_at := 600 }] }
        (some "ana@example.com") (some "GOODCODE") (some "npw2") (some "npw2") 20).1).status ≠ 200 :=
  ⟨reset_code_validity_single_use.1
      { id := 1, email := "a@b.c", code := "CODE1234", is_used := false,
        created_at := 0, expires_at := 600 } 10 rfl,
   reset_code_validity_single_use.2.1 (fun p => p)
      { users := [{ id := 7, email := "ana@example.com", password := "old",
                    first_name := "Ana", last_name := "Diaz", is_active := true }],
        codes := [{ id := 4, email := "ana@example.com", code := "GOODCODE",
                    is_used := true, created_at := 0, expires_at := 600 }] }
      "ana@example.com" "GOODCODE" (some "x") (some "x") 50 (by decide),
   reset_code_validity_single_use.2.2 (fun p => p)
      { users := [{ id := 7, email := "ana@example.com", password := "old",
                    first_name := "Ana", last_name := "Diaz", is_active := true }],
        codes := [{ id := 4, email := "ana@example.com", code := "GOODCODE",
                    is_used := false, created_at := 0, expires_at := 600 }] }
      "ana@example.com" "GOODCODE" (some "npw") (some "npw") 10
      { status := 200, detail := "Contraseña actualizada correctamente" }
      { users := [{ id := 7, email := "ana@example.com", password := "npw",
                    first_name := "Ana", last_name := "Diaz", is_active := true }],
        codes := [{ id := 4, email := "ana@example.com", code := "GOODCODE",
                    is_used := true, created_at := 0, expires_at := 600 }] }
      (by decide) rfl (by decide) (fun p => p) (some "npw2") (some "npw2") 20⟩

/-- C2: a successful (user-exists) `request_code` marks every prior unused
code for that email as used — so each such code fails validation at every
later time even if unexpired — and leaves the freshly issued code as the at
most one unused code for that email. -/
theorem request_code_invalidates_prior
    (s : Store) (e : String) (now : Nat) (newCode : String) (emailErr : Option String)
    (r : UserResp) (s' : Store)
    (hne : e ≠ "")
    (hEq : request_code s (some e) now newCode emailErr = (r, s'))
    (huser : (s.users.find? (fun u => u.email == e)).isSome = true) :
    (∀ rc ∈ s'.codes, rc.email = e → rc.is_used = false →
      rc.code = newCode ∧ rc.created_at = now ∧ rc.expires_at = now + 600)
    ∧ (∀ rc ∈ s'.codes, rc.is_used = true → ∀ t, rc.is_valid t = false)
    ∧ (s'.codes.filter (fun rc => rc.email == e && !rc.is_used)).length ≤ 1 := by
  have htruthy : truthy (some e) = true := by simp [truthy, hne]
  obtain ⟨u, hfind⟩ := Option.isSome_iff_exists.mp huser
  have hsnd : s'.codes = s.codes.map (markUsedFor e) ++
      [{ id := freshCodeId s.codes, email := e, code := newCode,
         is_used := false, created_at := now, expires_at := now + 600 }] := by
    cases emailErr with
    | none =>
      simp only [request_code, htruthy, Bool.not_true, Bool.false_eq_true, if_false,
        Option.getD_some, hfind] at hEq
      have h5 : (s.codes.map (markUsedFor e) ++
          [{ id := freshCodeId s.codes, email := e, code := newCode,
             is_used := false, created_at := now, expires_at := now + 600 }]) = s'.codes :=
        congrArg (fun q => q.2.codes) hEq
      exact h5.symm
    | some t =>
      simp only [request_code, htruthy, Bool.not_true, Bool.false_eq_true, if_false,
        Option.getD_some, hfind] at hEq
      have h5 : (s.codes.map (markUsedFor e) ++
          [{ id := freshCodeId s.codes, email := e, code := newCode,
             is_used := false, created_at := now, expires_at := now + 600 }]) = s'.codes :=
        congrArg (fun q => q.2.codes) hEq
      exact h5.symm
  refine ⟨?_, ?_, ?_⟩
  · intro rc hrc he hu
    rw [hsnd] at hrc
    rcases List.mem_append.mp hrc with hin | hin
    · exfalso
      obtain ⟨y, hy, hyeq⟩ := List.mem_map.mp hin
      have hnot := markUsedFor_not_unused e y
      rw [hyeq] at hnot
      simp [he, hu] at hnot
    · rw [List.mem_singleton] at hin
      subst hin
      exact ⟨rfl, rfl, rfl⟩
  · intro rc _ hu t
    simp [PasswordResetCode.is_valid, hu]
  · rw [hsnd, List.filter_append]
    have hnil : (s.codes.map (markUsedFor e)).filter
        (fun rc => rc.email == e && !rc.is_used) = [] := by
      rw [List.filter_eq_nil_iff]
      intro a ha
      obtain ⟨y, hy, hyeq⟩ := List.mem_map.mp ha
      rw [← hyeq]
      simp [markUsedFor_not_unused e y]
    rw [hnil, List.nil_append]
    exact List.length_filter_le _ _

/-- Witness for C2: after issuing a second code, the store keeps at most one
unused code for the email. -/
theorem request_code_invalidates_prior_witness :
    (((request_code
        { users := [{ id := 7, email := "ana@example.com", password := "h",
                      first_name := "Ana", last_name := "Diaz", is_active := true }],
          codes := [{ id := 1, email := "ana@example.com", code := "OLDCODE1",
                      is_used := false, created_at := 0, expires_at := 600 }] }
        (some "ana@example.com") 100 "NEWCODE1" none).2).codes.filter
        (fun rc => rc.email == "ana@example.com" && !rc.is_used)).length ≤ 1 :=
  (request_code_invalidates_prior
      { users := [{ id := 7, email := "ana@example.com", password := "h",
                    first_name := "Ana", last_name := "Diaz", is_active := true }],
        codes := [{ id := 1, email := "ana@example.com", code := "OLDCODE1",
                    is_used := false, created_at := 0, expires_at := 600 }] }
      "ana@example.com" 100 "NEWCODE1" none _ _ (by decide) rfl (by decide)).2.2

/-- C9: when the reset-code lookup succeeds on an unexpired unused code but
no user has the email, `reset_password` answers 404 and leaves the store —
the code in particular — unchanged. -/
theorem reset_password_missing_user
    (hash : String → String) (s : Store) (e c np : String) (now : Nat)
    (hne : e ≠ "") (hnc : c ≠ "") (hnp : np ≠ "")
    (rc0 : PasswordResetCode) (h0 : rc0 ∈ s.codes) (hm : unusedMatch e c rc0 = true)
    (hfresh : now < rc0.expires_at)
    (hinv : ∀ rc ∈ s.codes, rc.email = e → rc.code = c →
      rc.expires_at = rc.created_at + 600)
    (hnouser : ∀ u ∈ s.users, u.email ≠ e) :
    reset_password hash s (some e) (some c) (some np) (some np) now =
      ({ status := 404, detail := "No existe un usuario con este email" }, s) := by
  obtain ⟨rc, hlu⟩ := latestUnused_isSome h0 hm
  obtain ⟨hmem, hm2⟩ := latestUnused_mem hlu
  obtain ⟨he2, hc2, hu2⟩ := unusedMatch_eq hm2
  obtain ⟨he0, hc0, _⟩ := unusedMatch_eq hm
  have hle : rc0.created_at ≤ rc.created_at := latestUnused_max hlu rc0 h0 hm
  have hexp : rc.expires_at = rc.created_at + 600 := hinv rc hmem he2 hc2
  have hexp0 : rc0.expires_at = rc0.created_at + 600 := hinv rc0 h0 he0 hc0
  have hlt : now < rc.created_at + 600 := by omega
  have hvalid : rc.is_valid now = true := by
    simp [PasswordResetCode.is_valid, hu2, hexp, hlt]
  have hfind : s.users.find? (fun u => u.email == e) = none := by
    rw [List.find?_eq_none]
    intro u hu
    simp [hnouser u hu]
  have htr : (truthy (some e) && truthy (some c) &&
      truthy (some np) && truthy (some np)) = true := by
    simp [truthy, hne, hnc, hnp]
  simp [reset_password, htr, hlu, hvalid, hfind]

/-- Witness for C9: a valid code for an email with no user record. -/
theorem reset_password_missing_user_witness :
    reset_password (fun p => p)
        { users := [],
          codes := [{ id := 2, email := "bob@example.com", code := "GOODCODE",
                      is_used := false, created_at := 0, expires_at := 600 }] }
        (some "bob@example.com") (some "GOODCODE") (some "npw") (some "npw") 10 =
      ({ status := 404, detail := "No existe un usuario con este email" },
       { users := [],
         codes := [{ id := 2, email := "bob@example.com", code := "GOODCODE",
                     is_used := false, created_at := 0, expires_at := 600 }] }) :=
  reset_password_missing_user (fun p => p) _ _ _ _ 10
    (by decide) (by decide) (by decide)
    { id := 2, email := "bob@example.com", code := "GOODCODE",
      is_used := false, created_at := 0, expires_at := 600 }
    (by decide) (by decide) (by decide) (by decide) (by decide)

end Quo
